import Mathlib

/-!
Verification of the trading simulator core (`src/simulator/simulation.py`).

The two simulation functions are embedded shallowly over `ℚ`:
`simulate_exponential_growth` and `simulate_baseline_harvest_engine`.
The harvest engine's weekly loop body becomes the step function `engineWeek`
on an explicit `EngineState`, and the loop becomes `engineSteps`.
-/

namespace TradingSim

/-- Embedding of `simulate_exponential_growth(P, r, periods)`:
`amounts = [P]` followed by `P * (1 + r) ** n` for `n = 1 .. periods`. -/
def simulate_exponential_growth (P r : ℚ) (periods : ℕ) : List ℚ :=
  P :: (List.range periods).map (fun n => P * (1 + r) ^ (n + 1))

/-- One entry of the history list returned by the harvest engine:
the dict `{'week', 'pot', 'vault', 'spend', 'profit', 'withdrawal'}`. -/
structure WeekRecord where
  week : ℕ
  pot : ℚ
  vault : ℚ
  spend : ℚ
  profit : ℚ
  withdrawal : ℚ
deriving Repr, DecidableEq

/-- The parameters of `simulate_baseline_harvest_engine`. -/
structure HarvestParams where
  initial_pot : ℚ
  weekly_return_rate : ℚ
  engine_cap : ℚ
  total_weeks : ℕ
  initial_vault : ℚ
  growth_vault_pct : ℚ
  harvest_vault_pct : ℚ
deriving Repr, DecidableEq

/-- The loop-carried state of the harvest engine:
the local variables `pot`, `vault`, `spend` and `in_harvest_phase`. -/
structure EngineState where
  pot : ℚ
  vault : ℚ
  spend : ℚ
  in_harvest_phase : Bool
deriving Repr, DecidableEq

/-- The body of the weekly loop of `simulate_baseline_harvest_engine`:
compute the profit, add it to the pot, and if the pot strictly exceeds the
cap, withdraw the excess, split it between vault and spend according to the
phase, and clamp the pot to the cap.  When the pot is below the cap the phase
flag is reset to `false` ("back to growth phase").  Returns the new state
together with the record appended to `history` this week. -/
def engineWeek (p : HarvestParams) (s : EngineState) (week : ℕ) :
    EngineState × WeekRecord :=
  let profit := s.pot * p.weekly_return_rate
  let pot1 := s.pot + profit
  if pot1 < p.engine_cap then
    (⟨pot1, s.vault, s.spend, false⟩,
     ⟨week, pot1, s.vault, s.spend, profit, 0⟩)
  else
    let excess := pot1 - p.engine_cap
    if 0 < excess then
      let alloc := if s.in_harvest_phase then p.harvest_vault_pct / 100
                   else p.growth_vault_pct / 100
      let vault1 := s.vault + excess * alloc
      let spend1 := s.spend + excess * (1 - alloc)
      (⟨p.engine_cap, vault1, spend1, true⟩,
       ⟨week, p.engine_cap, vault1, spend1, profit, excess⟩)
    else
      (⟨pot1, s.vault, s.spend, s.in_harvest_phase⟩,
       ⟨week, pot1, s.vault, s.spend, profit, 0⟩)

/-- Run the weekly loop `n` more times starting from state `s` at week
number `week`, collecting the history records. -/
def engineSteps (p : HarvestParams) (s : EngineState) (week : ℕ) :
    ℕ → List WeekRecord
  | 0 => []
  | n + 1 =>
    (engineWeek p s week).2 :: engineSteps p (engineWeek p s week).1 (week + 1) n

/-- The initial loop state: `pot = initial_pot`, `vault = initial_vault`,
`spend = 0.0`, `in_harvest_phase = False`. -/
def initState (p : HarvestParams) : EngineState :=
  ⟨p.initial_pot, p.initial_vault, 0, false⟩

/-- Embedding of `simulate_baseline_harvest_engine`: run the weekly loop for
`total_weeks` weeks starting at week 1 and return the history list. -/
def simulate_baseline_harvest_engine (p : HarvestParams) : List WeekRecord :=
  engineSteps p (initState p) 1 p.total_weeks

/-- The loop state after `k` completed weeks of the simulation. -/
def stateAt (p : HarvestParams) : ℕ → EngineState
  | 0 => initState p
  | k + 1 => (engineWeek p (stateAt p k) (k + 1)).1

/-- The record emitted for week `k + 1` (index `k` of the history list). -/
def recordAt (p : HarvestParams) (k : ℕ) : WeekRecord :=
  (engineWeek p (stateAt p k) (k + 1)).2

/-- The loop state after `k` further weeks starting from state `s` at week
number `week` (generalisation of `stateAt` used for induction). -/
def iterFrom (p : HarvestParams) (s : EngineState) (week : ℕ) :
    ℕ → EngineState
  | 0 => s
  | k + 1 => (engineWeek p (iterFrom p s week k) (week + k)).1

theorem engineSteps_length (p : HarvestParams) :
    ∀ (n : ℕ) (s : EngineState) (week : ℕ),
      (engineSteps p s week n).length = n := by
  intro n
  induction n with
  | zero => intro s week; rfl
  | succ n ih => intro s week; simp [engineSteps, ih]

theorem simulate_length (p : HarvestParams) :
    (simulate_baseline_harvest_engine p).length = p.total_weeks :=
  engineSteps_length p p.total_weeks (initState p) 1

theorem iterFrom_shift (p : HarvestParams) :
    ∀ (k : ℕ) (s : EngineState) (week : ℕ),
      iterFrom p (engineWeek p s week).1 (week + 1) k
        = iterFrom p s week (k + 1) := by
  intro k
  induction k with
  | zero => intro s week; simp [iterFrom]
  | succ k ih =>
    intro s week
    show (engineWeek p (iterFrom p (engineWeek p s week).1 (week + 1) k)
            (week + 1 + k)).1
        = (engineWeek p (iterFrom p s week (k + 1)) (week + (k + 1))).1
    rw [ih s week]
    have h : week + 1 + k = week + (k + 1) := by omega
    rw [h]

theorem engineSteps_getElem (p : HarvestParams) :
    ∀ (n k : ℕ) (s : EngineState) (week : ℕ), k < n →
      (engineSteps p s week n)[k]?
        = some (engineWeek p (iterFrom p s week k) (week + k)).2 := by
  intro n
  induction n with
  | zero => intro k s week hk; omega
  | succ n ih =>
    intro k s week hk
    cases k with
    | zero => simp [engineSteps, iterFrom]
    | succ k =>
      have hk' : k < n := by omega
      show ((engineWeek p s week).2
          :: engineSteps p (engineWeek p s week).1 (week + 1) n)[k + 1]?
          = _
      rw [List.getElem?_cons_succ, ih k (engineWeek p s week).1 (week + 1) hk',
        iterFrom_shift p k s week]
      have h : week + 1 + k = week + (k + 1) := by omega
      rw [h]

theorem stateAt_eq_iterFrom (p : HarvestParams) :
    ∀ k : ℕ, stateAt p k = iterFrom p (initState p) 1 k := by
  intro k
  induction k with
  | zero => rfl
  | succ k ih =>
    show (engineWeek p (stateAt p k) (k + 1)).1
        = (engineWeek p (iterFrom p (initState p) 1 k) (1 + k)).1
    rw [ih]
    have h : 1 + k = k + 1 := by omega
    rw [h]

theorem simulate_getElem (p : HarvestParams) (k : ℕ)
    (hk : k < p.total_weeks) :
    (simulate_baseline_harvest_engine p)[k]? = some (recordAt p k) := by
  rw [simulate_baseline_harvest_engine,
    engineSteps_getElem p p.total_weeks k (initState p) 1 hk,
    recordAt, stateAt_eq_iterFrom]
  have h : 1 + k = k + 1 := by omega
  rw [h]

theorem simulate_get (p : HarvestParams) (k : ℕ)
    (h : k < (simulate_baseline_harvest_engine p).length) :
    (simulate_baseline_harvest_engine p).get ⟨k, h⟩ = recordAt p k := by
  have hk : k < p.total_weeks := by rwa [simulate_length] at h
  have h1 : (simulate_baseline_harvest_engine p)[k]?
      = some ((simulate_baseline_harvest_engine p).get ⟨k, h⟩) := by
    rw [List.getElem?_eq_getElem h, List.get_eq_getElem]
  rw [simulate_getElem p k hk] at h1
  exact (Option.some_injective _ h1).symm

theorem engineWeek_pot (p : HarvestParams) (s : EngineState) (w : ℕ) :
    ((engineWeek p s w).2).pot = ((engineWeek p s w).1).pot := by
  simp only [engineWeek]
  split_ifs <;> rfl

theorem engineWeek_vault (p : HarvestParams) (s : EngineState) (w : ℕ) :
    ((engineWeek p s w).2).vault = ((engineWeek p s w).1).vault := by
  simp only [engineWeek]
  split_ifs <;> rfl

theorem engineWeek_spend (p : HarvestParams) (s : EngineState) (w : ℕ) :
    ((engineWeek p s w).2).spend = ((engineWeek p s w).1).spend := by
  simp only [engineWeek]
  split_ifs <;> rfl

theorem engineWeek_profit (p : HarvestParams) (s : EngineState) (w : ℕ) :
    ((engineWeek p s w).2).profit = s.pot * p.weekly_return_rate := by
  simp only [engineWeek]
  split_ifs <;> rfl

theorem engineWeek_pot_le (p : HarvestParams) (s : EngineState) (w : ℕ) :
    ((engineWeek p s w).2).pot ≤ p.engine_cap := by
  simp only [engineWeek]
  split_ifs with h1 h2 <;> simp <;> linarith

theorem engineWeek_withdrawal_max (p : HarvestParams) (s : EngineState)
    (w : ℕ) :
    ((engineWeek p s w).2).withdrawal
      = max 0 (s.pot + s.pot * p.weekly_return_rate - p.engine_cap) := by
  simp only [engineWeek]
  split_ifs with h1 h2 <;> simp <;> linarith

theorem engineWeek_vault_mono (p : HarvestParams) (s : EngineState) (w : ℕ)
    (hg : 0 ≤ p.growth_vault_pct) (hh : 0 ≤ p.harvest_vault_pct) :
    s.vault ≤ ((engineWeek p s w).1).vault := by
  simp only [engineWeek]
  split_ifs with h1 h2 h3 <;> simp
  · nlinarith
  · nlinarith

theorem engineWeek_spend_mono (p : HarvestParams) (s : EngineState) (w : ℕ)
    (hg : p.growth_vault_pct ≤ 100) (hh : p.harvest_vault_pct ≤ 100) :
    s.spend ≤ ((engineWeek p s w).1).spend := by
  simp only [engineWeek]
  split_ifs with h1 h2 h3 <;> simp
  · nlinarith
  · nlinarith

theorem engineWeek_total (p : HarvestParams) (s : EngineState) (w : ℕ) :
    ((engineWeek p s w).1).pot + ((engineWeek p s w).1).vault
        + ((engineWeek p s w).1).spend
      = s.pot + s.vault + s.spend + ((engineWeek p s w).2).profit := by
  simp only [engineWeek]
  split_ifs <;> simp <;> ring

theorem engineWeek_conservation (p : HarvestParams) (s : EngineState)
    (w : ℕ) :
    ((engineWeek p s w).1).vault - s.vault
        + (((engineWeek p s w).1).spend - s.spend)
      = ((engineWeek p s w).2).withdrawal := by
  simp only [engineWeek]
  split_ifs <;> simp <;> ring

theorem engineWeek_vault_alloc (p : HarvestParams) (s : EngineState)
    (w : ℕ) (hw : ((engineWeek p s w).2).withdrawal ≠ 0) :
    ((engineWeek p s w).1).vault - s.vault
      = ((engineWeek p s w).2).withdrawal
          * (if s.in_harvest_phase then p.harvest_vault_pct
             else p.growth_vault_pct) / 100 := by
  simp only [engineWeek] at hw ⊢
  split_ifs at hw ⊢ with h1 h2 h3 <;> simp_all <;> ring

theorem engineWeek_flag_of_withdrawal (p : HarvestParams) (s : EngineState)
    (w : ℕ) (hw : 0 < ((engineWeek p s w).2).withdrawal) :
    ((engineWeek p s w).1).in_harvest_phase = true := by
  simp only [engineWeek] at hw ⊢
  split_ifs at hw ⊢ with h1 h2 <;> simp_all

theorem engineWeek_flag_persist (p : HarvestParams) (s : EngineState)
    (w : ℕ) (hs : s.in_harvest_phase = true)
    (hpot : p.engine_cap ≤ ((engineWeek p s w).2).pot) :
    ((engineWeek p s w).1).in_harvest_phase = true := by
  simp only [engineWeek] at hpot ⊢
  split_ifs at hpot ⊢ with h1 h2 <;> simp_all
  linarith

theorem engineWeek_harvest_alloc (p : HarvestParams) (s : EngineState)
    (w : ℕ) (hs : s.in_harvest_phase = true)
    (hw : 0 < ((engineWeek p s w).2).withdrawal) :
    ((engineWeek p s w).1).vault - s.vault
      = ((engineWeek p s w).2).withdrawal * p.harvest_vault_pct / 100 := by
  simp only [engineWeek] at hw ⊢
  split_ifs at hw ⊢ with h1 h2 <;> simp_all
  ring

theorem recordAt_pot (p : HarvestParams) (k : ℕ) :
    (recordAt p k).pot = (stateAt p (k + 1)).pot :=
  engineWeek_pot p (stateAt p k) (k + 1)

theorem recordAt_vault (p : HarvestParams) (k : ℕ) :
    (recordAt p k).vault = (stateAt p (k + 1)).vault :=
  engineWeek_vault p (stateAt p k) (k + 1)

theorem recordAt_spend (p : HarvestParams) (k : ℕ) :
    (recordAt p k).spend = (stateAt p (k + 1)).spend :=
  engineWeek_spend p (stateAt p k) (k + 1)

/-- Claim C4: `simulate_exponential_growth P r n` returns `n + 1` amounts
with `amounts[0] = P` and `amounts[k] = P * (1 + r) ^ k` for every
`k ≤ n`; in particular `n = 0` gives `[P]` and `r = 0` a constant
sequence. -/
theorem exp_growth_closed_form (P r : ℚ) (n k : ℕ) (hk : k ≤ n) :
    (simulate_exponential_growth P r n).length = n + 1 ∧
    (simulate_exponential_growth P r n)[k]? = some (P * (1 + r) ^ k) := by
  constructor
  · simp [simulate_exponential_growth]
  · cases k with
    | zero => simp [simulate_exponential_growth]
    | succ k =>
      have hk' : k < n := by omega
      simp [simulate_exponential_growth, hk']

theorem exp_growth_closed_form_witness :
    (simulate_exponential_growth 2 1 3).length = 3 + 1 ∧
    (simulate_exponential_growth 2 1 3)[2]? = some (2 * (1 + 1) ^ 2) :=
  exp_growth_closed_form 2 1 3 2 (by decide)

/-- Claim C5: every record emitted by `simulate_baseline_harvest_engine`
has `pot ≤ engine_cap` (the cap invariant holds after every week's
transition). -/
theorem harvest_pot_le_cap (p : HarvestParams) (k : ℕ)
    (h : k < (simulate_baseline_harvest_engine p).length) :
    ((simulate_baseline_harvest_engine p).get ⟨k, h⟩).pot ≤ p.engine_cap := by
  rw [simulate_get]
  exact engineWeek_pot_le p (stateAt p k) (k + 1)

theorem harvest_pot_le_cap_witness :
    ((simulate_baseline_harvest_engine ⟨5000, 1, 6000, 2, 0, 50, 25⟩).get
        ⟨0, by decide⟩).pot ≤ (6000 : ℚ) :=
  harvest_pot_le_cap ⟨5000, 1, 6000, 2, 0, 50, 25⟩ 0 (by decide)

/-- Claim C8: every week's withdrawal equals
`max(0, pot_before_cap - engine_cap)` where `pot_before_cap` is the pot of
the previous week plus this week's profit (the pot after adding profit and
before capping). -/
theorem withdrawal_eq_max (p : HarvestParams) (k : ℕ)
    (h : k < (simulate_baseline_harvest_engine p).length) :
    ((simulate_baseline_harvest_engine p).get ⟨k, h⟩).withdrawal
      = max 0 ((stateAt p k).pot
          + ((simulate_baseline_harvest_engine p).get ⟨k, h⟩).profit
          - p.engine_cap) := by
  rw [simulate_get, recordAt, engineWeek_profit]
  exact engineWeek_withdrawal_max p (stateAt p k) (k + 1)

theorem withdrawal_eq_max_witness :
    ((simulate_baseline_harvest_engine ⟨5000, 1, 6000, 2, 0, 50, 25⟩).get
        ⟨0, by decide⟩).withdrawal
      = max 0 ((stateAt ⟨5000, 1, 6000, 2, 0, 50, 25⟩ 0).pot
          + ((simulate_baseline_harvest_engine
              ⟨5000, 1, 6000, 2, 0, 50, 25⟩).get ⟨0, by decide⟩).profit
          - (6000 : ℚ)) :=
  withdrawal_eq_max ⟨5000, 1, 6000, 2, 0, 50, 25⟩ 0 (by decide)

/-- Claim C9: the two-week scenario
`initial_pot=5000, weekly_return_rate=1.0, engine_cap=6000, total_weeks=2,
initial_vault=0, growth_vault_pct=50, harvest_vault_pct=25` returns exactly
week 1 with `pot=6000, withdrawal=4000, vault=2000, spend=2000` and week 2
with `pot=6000, withdrawal=6000, vault=3500, spend=6500`. -/
theorem scenario_two_weeks :
    simulate_baseline_harvest_engine ⟨5000, 1, 6000, 2, 0, 50, 25⟩
      = [⟨1, 6000, 2000, 2000, 5000, 4000⟩,
         ⟨2, 6000, 3500, 6500, 6000, 6000⟩] := by
  norm_num [simulate_baseline_harvest_engine, engineSteps, engineWeek, initState]

/-- Claim C6: with `growth_vault_pct` and `harvest_vault_pct` in `[0, 100]`,
the `vault` and `spend` values of the history are monotonically
non-decreasing from each week to the next. -/
theorem vault_spend_monotone (p : HarvestParams)
    (hg0 : 0 ≤ p.growth_vault_pct) (hg1 : p.growth_vault_pct ≤ 100)
    (hh0 : 0 ≤ p.harvest_vault_pct) (hh1 : p.harvest_vault_pct ≤ 100)
    (k : ℕ) (h : k + 1 < (simulate_baseline_harvest_engine p).length) :
    ((simulate_baseline_harvest_engine p).get
        ⟨k, Nat.lt_of_succ_lt h⟩).vault
      ≤ ((simulate_baseline_harvest_engine p).get ⟨k + 1, h⟩).vault ∧
    ((simulate_baseline_harvest_engine p).get
        ⟨k, Nat.lt_of_succ_lt h⟩).spend
      ≤ ((simulate_baseline_harvest_engine p).get ⟨k + 1, h⟩).spend := by
  rw [simulate_get, simulate_get]
  constructor
  · rw [recordAt_vault p k, recordAt_vault p (k + 1)]
    exact engineWeek_vault_mono p (stateAt p (k + 1)) (k + 2) hg0 hh0
  · rw [recordAt_spend p k, recordAt_spend p (k + 1)]
    exact engineWeek_spend_mono p (stateAt p (k + 1)) (k + 2) hg1 hh1

theorem vault_spend_monotone_witness :
    ((simulate_baseline_harvest_engine ⟨5000, 1, 6000, 2, 0, 50, 25⟩).get
        ⟨0, by decide⟩).vault
      ≤ ((simulate_baseline_harvest_engine ⟨5000, 1, 6000, 2, 0, 50, 25⟩).get
        ⟨1, by decide⟩).vault ∧
    ((simulate_baseline_harvest_engine ⟨5000, 1, 6000, 2, 0, 50, 25⟩).get
        ⟨0, by decide⟩).spend
      ≤ ((simulate_baseline_harvest_engine ⟨5000, 1, 6000, 2, 0, 50, 25⟩).get
        ⟨1, by decide⟩).spend :=
  vault_spend_monotone ⟨5000, 1, 6000, 2, 0, 50, 25⟩ (by norm_num)
    (by norm_num) (by norm_num) (by norm_num) 0 (by decide)

/-- Claim C7: for every week record with a nonzero withdrawal, the week's
increase in `vault` plus the week's increase in `spend` equals the
withdrawal, and the `vault` increase is the withdrawal times the active
phase's allocation percentage divided by 100 (the harvest percentage when
the phase flag was already set before the week, the growth percentage
otherwise).  The vault and spend of the previous week are the fields of
`stateAt p k`, the loop state carried into week `k + 1`. -/
theorem withdrawal_split (p : HarvestParams) (k : ℕ)
    (h : k < (simulate_baseline_harvest_engine p).length)
    (hw : ((simulate_baseline_harvest_engine p).get ⟨k, h⟩).withdrawal
      ≠ 0) :
    (((simulate_baseline_harvest_engine p).get ⟨k, h⟩).vault
          - (stateAt p k).vault)
        + (((simulate_baseline_harvest_engine p).get ⟨k, h⟩).spend
          - (stateAt p k).spend)
      = ((simulate_baseline_harvest_engine p).get ⟨k, h⟩).withdrawal ∧
    ((simulate_baseline_harvest_engine p).get ⟨k, h⟩).vault
        - (stateAt p k).vault
      = ((simulate_baseline_harvest_engine p).get ⟨k, h⟩).withdrawal
          * (if (stateAt p k).in_harvest_phase then p.harvest_vault_pct
             else p.growth_vault_pct) / 100 := by
  rw [simulate_get] at hw ⊢
  constructor
  · rw [recordAt_vault p k, recordAt_spend p k]
    exact engineWeek_conservation p (stateAt p k) (k + 1)
  · rw [recordAt_vault p k]
    exact engineWeek_vault_alloc p (stateAt p k) (k + 1) hw

theorem withdrawal_split_witness :
    (((simulate_baseline_harvest_engine ⟨5000, 1, 6000, 2, 0, 50, 25⟩).get
          ⟨1, by decide⟩).vault
        - (stateAt ⟨5000, 1, 6000, 2, 0, 50, 25⟩ 1).vault)
      + (((simulate_baseline_harvest_engine ⟨5000, 1, 6000, 2, 0, 50, 25⟩).get
          ⟨1, by decide⟩).spend
        - (stateAt ⟨5000, 1, 6000, 2, 0, 50, 25⟩ 1).spend)
      = ((simulate_baseline_harvest_engine ⟨5000, 1, 6000, 2, 0, 50, 25⟩).get
          ⟨1, by decide⟩).withdrawal ∧
    ((simulate_baseline_harvest_engine ⟨5000, 1, 6000, 2, 0, 50, 25⟩).get
          ⟨1, by decide⟩).vault
        - (stateAt ⟨5000, 1, 6000, 2, 0, 50, 25⟩ 1).vault
      = ((simulate_baseline_harvest_engine ⟨5000, 1, 6000, 2, 0, 50, 25⟩).get
          ⟨1, by decide⟩).withdrawal
        * (if (stateAt ⟨5000, 1, 6000, 2, 0, 50, 25⟩ 1).in_harvest_phase
             then (25 : ℚ) else (50 : ℚ)) / 100 :=
  withdrawal_split ⟨5000, 1, 6000, 2, 0, 50, 25⟩ 1 (by decide)
    (by norm_num [simulate_baseline_harvest_engine, engineSteps, engineWeek,
      initState, List.get])

theorem record_total (p : HarvestParams) (k : ℕ) :
    (recordAt p k).pot + (recordAt p k).vault + (recordAt p k).spend
      = (stateAt p k).pot + (stateAt p k).vault + (stateAt p k).spend
          + (recordAt p k).profit := by
  rw [recordAt, engineWeek_pot, engineWeek_vault, engineWeek_spend]
  exact engineWeek_total p (stateAt p k) (k + 1)

theorem state_total_succ (p : HarvestParams) (k : ℕ) :
    (stateAt p (k + 1)).pot + (stateAt p (k + 1)).vault
        + (stateAt p (k + 1)).spend
      = (recordAt p k).pot + (recordAt p k).vault + (recordAt p k).spend := by
  rw [recordAt_pot p k, recordAt_vault p k, recordAt_spend p k]

/-- Claim C10: money conservation.  Week 1's total `pot + vault + spend`
equals `initial_pot + initial_vault + 0` plus week 1's profit, and every
later week's total equals the previous week's total plus that week's
profit: withdrawals only move value between the three accounts. -/
theorem money_conservation (p : HarvestParams)
    (h0 : 0 < (simulate_baseline_harvest_engine p).length) :
    (((simulate_baseline_harvest_engine p).get ⟨0, h0⟩).pot
        + ((simulate_baseline_harvest_engine p).get ⟨0, h0⟩).vault
        + ((simulate_baseline_harvest_engine p).get ⟨0, h0⟩).spend
      = p.initial_pot + p.initial_vault + 0
          + ((simulate_baseline_harvest_engine p).get ⟨0, h0⟩).profit) ∧
    ∀ (k : ℕ) (h : k + 1 < (simulate_baseline_harvest_engine p).length),
      ((simulate_baseline_harvest_engine p).get ⟨k + 1, h⟩).pot
          + ((simulate_baseline_harvest_engine p).get ⟨k + 1, h⟩).vault
          + ((simulate_baseline_harvest_engine p).get ⟨k + 1, h⟩).spend
        = ((simulate_baseline_harvest_engine p).get
              ⟨k, Nat.lt_of_succ_lt h⟩).pot
            + ((simulate_baseline_harvest_engine p).get
              ⟨k, Nat.lt_of_succ_lt h⟩).vault
            + ((simulate_baseline_harvest_engine p).get
              ⟨k, Nat.lt_of_succ_lt h⟩).spend
            + ((simulate_baseline_harvest_engine p).get ⟨k + 1, h⟩).profit := by
  constructor
  · rw [simulate_get]
    have h1 := record_total p 0
    simpa [stateAt, initState] using h1
  · intro k h
    rw [simulate_get, simulate_get, record_total p (k + 1), state_total_succ p k]

theorem money_conservation_witness :
    ((simulate_baseline_harvest_engine ⟨5000, 1, 6000, 2, 0, 50, 25⟩).get
          ⟨1, by decide⟩).pot
        + ((simulate_baseline_harvest_engine ⟨5000, 1, 6000, 2, 0, 50, 25⟩).get
          ⟨1, by decide⟩).vault
        + ((simulate_baseline_harvest_engine ⟨5000, 1, 6000, 2, 0, 50, 25⟩).get
          ⟨1, by decide⟩).spend
      = ((simulate_baseline_harvest_engine ⟨5000, 1, 6000, 2, 0, 50, 25⟩).get
            ⟨0, by decide⟩).pot
          + ((simulate_baseline_harvest_engine ⟨5000, 1, 6000, 2, 0, 50, 25⟩).get
            ⟨0, by decide⟩).vault
          + ((simulate_baseline_harvest_engine ⟨5000, 1, 6000, 2, 0, 50, 25⟩).get
            ⟨0, by decide⟩).spend
          + ((simulate_baseline_harvest_engine ⟨5000, 1, 6000, 2, 0, 50, 25⟩).get
            ⟨1, by decide⟩).profit :=
  (money_conservation ⟨5000, 1, 6000, 2, 0, 50, 25⟩ (by decide)).2 0 (by decide)

theorem stateAt_pot_zero_rate (p : HarvestParams)
    (hr : p.weekly_return_rate = 0) (hlt : p.initial_pot < p.engine_cap) :
    ∀ k, (stateAt p k).pot = p.initial_pot := by
  intro k
  induction k with
  | zero => rfl
  | succ k ih =>
    show ((engineWeek p (stateAt p k) (k + 1)).1).pot = p.initial_pot
    simp only [engineWeek, hr, mul_zero, add_zero, ih]
    rw [if_pos hlt]

theorem engineWeek_first_cap (p : HarvestParams) (s : EngineState) (w : ℕ)
    (hr : p.weekly_return_rate = 0) (hflag : s.in_harvest_phase = false)
    (hge : p.engine_cap ≤ s.pot) :
    ((engineWeek p s w).2).withdrawal = s.pot - p.engine_cap ∧
    ((engineWeek p s w).2).vault
      = s.vault + (s.pot - p.engine_cap) * p.growth_vault_pct / 100 := by
  simp only [engineWeek, hr, mul_zero, add_zero, hflag, Bool.false_eq_true,
    if_false]
  rw [if_neg (not_lt.mpr hge)]
  by_cases hx : 0 < s.pot - p.engine_cap
  · rw [if_pos hx]
    refine ⟨rfl, ?_⟩
    show s.vault + (s.pot - p.engine_cap) * (p.growth_vault_pct / 100)
        = s.vault + (s.pot - p.engine_cap) * p.growth_vault_pct / 100
    ring
  · rw [if_neg hx]
    have hz : s.pot - p.engine_cap = 0 := by linarith
    rw [hz]
    refine ⟨rfl, ?_⟩
    show s.vault = s.vault + 0 * p.growth_vault_pct / 100
    ring

/-- Claim C3: with `weekly_return_rate = 0` the pot never grows.  If
`initial_pot < engine_cap`, every record has `withdrawal = 0` and
`pot = initial_pot`.  If `initial_pot ≥ engine_cap`, week 1's record has
`withdrawal = initial_pot - engine_cap`, allocated with
`growth_vault_pct`. -/
theorem zero_rate_behavior (p : HarvestParams)
    (hr : p.weekly_return_rate = 0) :
    (p.initial_pot < p.engine_cap →
      ∀ (k : ℕ) (h : k < (simulate_baseline_harvest_engine p).length),
        ((simulate_baseline_harvest_engine p).get ⟨k, h⟩).withdrawal = 0 ∧
        ((simulate_baseline_harvest_engine p).get ⟨k, h⟩).pot
          = p.initial_pot) ∧
    (p.engine_cap ≤ p.initial_pot →
      ∀ (h : 0 < (simulate_baseline_harvest_engine p).length),
        ((simulate_baseline_harvest_engine p).get ⟨0, h⟩).withdrawal
          = p.initial_pot - p.engine_cap ∧
        ((simulate_baseline_harvest_engine p).get ⟨0, h⟩).vault
          = p.initial_vault
            + (p.initial_pot - p.engine_cap) * p.growth_vault_pct / 100) := by
  constructor
  · intro hlt k h
    rw [simulate_get, recordAt]
    have hp := stateAt_pot_zero_rate p hr hlt k
    simp only [engineWeek, hr, mul_zero, add_zero, hp]
    rw [if_pos hlt]
    exact ⟨rfl, rfl⟩
  · intro hge h
    rw [simulate_get, recordAt]
    have e0 : stateAt p 0 = initState p := rfl
    rw [e0]
    have hflag : (initState p).in_harvest_phase = false := rfl
    have hpot : (initState p).pot = p.initial_pot := rfl
    have hvault : (initState p).vault = p.initial_vault := rfl
    have h1 := engineWeek_first_cap p (initState p) 1 hr hflag
      (by rw [hpot]; exact hge)
    rw [hpot, hvault] at h1
    exact h1

theorem zero_rate_behavior_witness :
    ((simulate_baseline_harvest_engine ⟨9000, 0, 10000, 3, 50, 50, 25⟩).get
        ⟨2, by decide⟩).withdrawal = 0 ∧
    ((simulate_baseline_harvest_engine ⟨9000, 0, 10000, 3, 50, 50, 25⟩).get
        ⟨2, by decide⟩).pot = 9000 :=
  (zero_rate_behavior ⟨9000, 0, 10000, 3, 50, 50, 25⟩ rfl).1 (by norm_num) 2
    (by decide)

/-- Claim C2 is false on the code: with `initial_pot = 1 > 0`,
`total_weeks = 2 ≥ 1` and `engine_cap = 0` (remaining parameters at their
defaults), week 1 withdraws the whole pot, the pot is then pinned at the
zero cap, and week 2's withdrawal is `0`, not positive. -/
theorem engine_cap_zero_counterexample :
    (0 : ℚ) < 1 ∧ (1 : ℕ) ≤ 2 ∧
    ((simulate_baseline_harvest_engine ⟨1, 0, 0, 2, 0, 50, 25⟩).get
        ⟨1, by decide⟩).withdrawal = 0 := by
  refine ⟨by norm_num, by norm_num, ?_⟩
  norm_num [simulate_baseline_harvest_engine, engineSteps, engineWeek,
    initState, List.get]

theorem engineWeek_cap_zero_pos (p : HarvestParams) (s : EngineState)
    (w : ℕ) (hr : p.weekly_return_rate = 0) (hcap : p.engine_cap = 0)
    (hpos : 0 < s.pot) :
    ((engineWeek p s w).1).pot = 0 ∧
    ((engineWeek p s w).2).withdrawal = s.pot := by
  simp only [engineWeek, hr, hcap, mul_zero, add_zero, sub_zero]
  rw [if_neg (not_lt.mpr (le_of_lt hpos)), if_pos hpos]
  exact ⟨rfl, rfl⟩

theorem engineWeek_pot_zero (p : HarvestParams) (s : EngineState) (w : ℕ)
    (hr : p.weekly_return_rate = 0) (hcap : p.engine_cap = 0)
    (hz : s.pot = 0) :
    ((engineWeek p s w).1).pot = 0 ∧
    ((engineWeek p s w).2).withdrawal = 0 := by
  simp only [engineWeek, hr, hcap, hz, mul_zero, add_zero, sub_zero]
  rw [if_neg (lt_irrefl (0 : ℚ)), if_neg (lt_irrefl (0 : ℚ))]
  exact ⟨rfl, rfl⟩

theorem stateAt_cap_zero (p : HarvestParams)
    (hr : p.weekly_return_rate = 0) (hcap : p.engine_cap = 0)
    (hpot : 0 < p.initial_pot) :
    ∀ k, 1 ≤ k → (stateAt p k).pot = 0 := by
  intro k hk
  induction k with
  | zero => omega
  | succ k ih =>
    rcases Nat.lt_or_ge k 1 with hk1 | hk1
    · have hk0 : k = 0 := by omega
      subst hk0
      exact (engineWeek_cap_zero_pos p (stateAt p 0) 1 hr hcap hpot).1
    · have h0 := ih hk1
      exact (engineWeek_pot_zero p (stateAt p k) (k + 1) hr hcap h0).1

/-- Claim C2 (amended): with `engine_cap = 0`, `weekly_return_rate = 0`
(its default) and the remaining parameters at their defaults, for every
`initial_pot > 0` and `total_weeks ≥ 1` a withdrawal is forced in week 1
only: the week-1 record has `withdrawal = initial_pot`, after which the
pot is pinned at the zero cap and every later week's withdrawal is `0`. -/
theorem engine_cap_zero_behavior (pot0 : ℚ) (n : ℕ) (hpot : 0 < pot0)
    (hn : 1 ≤ n) :
    ∀ (h1 : 0 < (simulate_baseline_harvest_engine
        ⟨pot0, 0, 0, n, 0, 50, 25⟩).length),
      ((simulate_baseline_harvest_engine ⟨pot0, 0, 0, n, 0, 50, 25⟩).get
          ⟨0, h1⟩).withdrawal = pot0 ∧
      ∀ (k : ℕ) (hk : k < (simulate_baseline_harvest_engine
          ⟨pot0, 0, 0, n, 0, 50, 25⟩).length), 1 ≤ k →
        ((simulate_baseline_harvest_engine ⟨pot0, 0, 0, n, 0, 50, 25⟩).get
            ⟨k, hk⟩).withdrawal = 0 := by
  intro h1
  constructor
  · rw [simulate_get]
    exact (engineWeek_cap_zero_pos ⟨pot0, 0, 0, n, 0, 50, 25⟩
      (stateAt ⟨pot0, 0, 0, n, 0, 50, 25⟩ 0) 1 rfl rfl hpot).2
  · intro k hk hk1
    rw [simulate_get]
    have h0 := stateAt_cap_zero ⟨pot0, 0, 0, n, 0, 50, 25⟩ rfl rfl hpot k hk1
    exact (engineWeek_pot_zero ⟨pot0, 0, 0, n, 0, 50, 25⟩
      (stateAt ⟨pot0, 0, 0, n, 0, 50, 25⟩ k) (k + 1) rfl rfl h0).2

theorem engine_cap_zero_behavior_witness :
    ((simulate_baseline_harvest_engine ⟨1, 0, 0, 2, 0, 50, 25⟩).get
        ⟨0, by decide⟩).withdrawal = 1 ∧
    ((simulate_baseline_harvest_engine ⟨1, 0, 0, 2, 0, 50, 25⟩).get
        ⟨1, by decide⟩).withdrawal = 0 :=
  ⟨((engine_cap_zero_behavior 1 2 (by norm_num) (by norm_num)) (by decide)).1,
   ((engine_cap_zero_behavior 1 2 (by norm_num) (by norm_num)) (by decide)).2
     1 (by decide) (by norm_num)⟩

/-- Claim C1 is false on the code: in the run with `initial_pot = 6000`,
`weekly_return_rate = -3`, `engine_cap = 6000`, `total_weeks = 4` and the
remaining parameters at their defaults, week 2's withdrawal of 18000 is
split with `growth_vault_pct = 50` (vault delta 9000), yet week 4's later
withdrawal of 18000 is again split with `growth_vault_pct` (vault delta
9000, not `18000 * 25 / 100 = 4500`): the week-3 dip of the pot below the
cap reset the phase flag to the growth phase. -/
theorem harvest_flag_reset_counterexample :
    ((simulate_baseline_harvest_engine ⟨6000, -3, 6000, 4, 0, 50, 25⟩).get
        ⟨1, by decide⟩).withdrawal = 18000 ∧
    ((simulate_baseline_harvest_engine ⟨6000, -3, 6000, 4, 0, 50, 25⟩).get
          ⟨1, by decide⟩).vault
        - ((simulate_baseline_harvest_engine ⟨6000, -3, 6000, 4, 0, 50, 25⟩).get
          ⟨0, by decide⟩).vault = 18000 * (50 / 100) ∧
    ((simulate_baseline_harvest_engine ⟨6000, -3, 6000, 4, 0, 50, 25⟩).get
        ⟨3, by decide⟩).withdrawal = 18000 ∧
    ((simulate_baseline_harvest_engine ⟨6000, -3, 6000, 4, 0, 50, 25⟩).get
          ⟨3, by decide⟩).vault
        - ((simulate_baseline_harvest_engine ⟨6000, -3, 6000, 4, 0, 50, 25⟩).get
          ⟨2, by decide⟩).vault ≠ 18000 * (25 / 100) := by
  refine ⟨?_, ?_, ?_, ?_⟩ <;>
    norm_num [simulate_baseline_harvest_engine, engineSteps, engineWeek,
      initState, List.get]

/-- Claim C1 (amended): the harvest-phase flag persists only while the pot
stays at or above `engine_cap`.  If week `i + 1`'s withdrawal is positive
and the pot of every intervening week stays at or above the cap, then week
`j + 1`'s withdrawal (if positive) is allocated with `harvest_vault_pct`:
its vault increase is `withdrawal * harvest_vault_pct / 100`.  (A week
whose post-profit pot falls below the cap resets the flag, after which the
next capped withdrawal uses `growth_vault_pct` again.) -/
theorem harvest_alloc_persists (p : HarvestParams) (i j : ℕ) (hij : i < j)
    (hj : j < (simulate_baseline_harvest_engine p).length)
    (hwi : 0 < ((simulate_baseline_harvest_engine p).get
        ⟨i, Nat.lt_trans hij hj⟩).withdrawal)
    (hnd : ∀ (m : ℕ) (hm1 : i < m) (hm2 : m < j),
      p.engine_cap ≤ ((simulate_baseline_harvest_engine p).get
        ⟨m, Nat.lt_trans hm2 hj⟩).pot)
    (hwj : 0 < ((simulate_baseline_harvest_engine p).get
        ⟨j, hj⟩).withdrawal) :
    ((simulate_baseline_harvest_engine p).get ⟨j, hj⟩).vault
        - (stateAt p j).vault
      = ((simulate_baseline_harvest_engine p).get ⟨j, hj⟩).withdrawal
          * p.harvest_vault_pct / 100 := by
  rw [simulate_get] at hwi hwj ⊢
  simp only [simulate_get] at hnd
  have hflag1 : (stateAt p (i + 1)).in_harvest_phase = true :=
    engineWeek_flag_of_withdrawal p (stateAt p i) (i + 1) hwi
  have key : ∀ d, i + 1 + d ≤ j →
      (stateAt p (i + 1 + d)).in_harvest_phase = true := by
    intro d
    induction d with
    | zero => intro _; exact hflag1
    | succ d ih =>
      intro hle
      have h2 := ih (by omega)
      have hm : p.engine_cap ≤ (recordAt p (i + 1 + d)).pot :=
        hnd (i + 1 + d) (by omega) (by omega)
      have h3 := engineWeek_flag_persist p (stateAt p (i + 1 + d))
        (i + 1 + d + 1) h2 hm
      have hidx : i + 1 + (d + 1) = i + 1 + d + 1 := by omega
      rw [hidx]
      exact h3
  have hflagj : (stateAt p j).in_harvest_phase = true := by
    have hd : j = i + 1 + (j - i - 1) := by omega
    rw [hd]
    exact key (j - i - 1) (by omega)
  rw [recordAt_vault p j]
  exact engineWeek_harvest_alloc p (stateAt p j) (j + 1) hflagj hwj

theorem harvest_alloc_persists_witness :
    ((simulate_baseline_harvest_engine ⟨5000, 1, 6000, 3, 0, 50, 25⟩).get
          ⟨2, by decide⟩).vault
        - (stateAt ⟨5000, 1, 6000, 3, 0, 50, 25⟩ 2).vault
      = ((simulate_baseline_harvest_engine ⟨5000, 1, 6000, 3, 0, 50, 25⟩).get
          ⟨2, by decide⟩).withdrawal * 25 / 100 :=
  harvest_alloc_persists ⟨5000, 1, 6000, 3, 0, 50, 25⟩ 0 2 (by norm_num)
    (by decide)
    (by norm_num [simulate_baseline_harvest_engine, engineSteps, engineWeek,
      initState, List.get])
    (fun m hm1 hm2 => by
      have hm : m = 1 := by omega
      subst hm
      norm_num [simulate_baseline_harvest_engine, engineSteps, engineWeek,
        initState, List.get])
    (by norm_num [simulate_baseline_harvest_engine, engineSteps, engineWeek,
      initState, List.get])

end TradingSim
